import Mathlib

/-!
# Verification of the Lerty n8n trigger node's connection and routing core

Shallow embedding of `src/nodes/LertyTrigger/LertyTrigger.node.ts` and the
`LertyWebSocket` utility it uses: the webhook handler, the message filter
(`shouldTrigger`), message processing (`processMessage`), topic resolution
(`subscribeToTopics`), the reconnect state machine (`handleReconnect` /
`connect` handlers / `disconnect`), and wire-payload normalization
(`parseMessage`).

JavaScript string values that may be `undefined` are modelled as
`Option String`; JS truthiness on strings (`undefined` and `""` are falsy)
is `truthyStr`.  JS `a || b` on strings is `jsOrStr`.
-/

/-- JS `a || b` for a possibly-undefined string `a`: yields `b` when `a` is
`undefined` or the empty string (both falsy), else `a`. -/
def jsOrStr (a : Option String) (b : String) : String :=
  match a with
  | none => b
  | some s => if s = "" then b else s

/-- JS truthiness of a possibly-undefined string: `false` for `undefined`
and for `""`. -/
def truthyStr (a : Option String) : Bool :=
  match a with
  | none => false
  | some s => s != ""

/-- JS `n || d` for a possibly-undefined number: `0` and `undefined` are
falsy and yield the default. -/
def jsOrNat (a : Option Nat) (d : Nat) : Nat :=
  match a with
  | none => d
  | some n => if n = 0 then d else n

/-- Model of JS `String.prototype.toLowerCase` (ASCII case mapping,
character by character). -/
def lowerStr (s : String) : String :=
  ⟨s.data.map Char.toLower⟩

/-- Boolean list-prefix test (used to build the substring test). -/
def prefB : List Char → List Char → Bool
  | [], _ => true
  | _ :: _, [] => false
  | a :: as, b :: bs => a == b && prefB as bs

/-- Boolean contiguous-sublist test: does `p` occur inside `l`? -/
def subListB (p : List Char) : List Char → Bool
  | [] => p.isEmpty
  | c :: cs => prefB p (c :: cs) || subListB p cs

/-- Model of JS `content.toLowerCase().includes(pat.toLowerCase())`. -/
def containsCI (content pat : String) : Bool :=
  subListB (lowerStr pat).data (lowerStr content).data

/-- Model of JS `s.split(sep)` for a single-character separator. -/
def splitAux (sep : Char) : List Char → List Char → List String
  | [], acc => [⟨acc.reverse⟩]
  | c :: cs, acc =>
    if c == sep then ⟨acc.reverse⟩ :: splitAux sep cs []
    else splitAux sep cs (c :: acc)

/-- JS `s.split(sep)` (single-character separator). -/
def splitChar (s : String) (sep : Char) : List String :=
  splitAux sep s.data []

/-- Whitespace recognised by the model of JS `String.prototype.trim`. -/
def isWSChar (c : Char) : Bool :=
  c == ' ' || c == '\t' || c == '\n' || c == '\r'

/-- Model of JS `s.trim()`. -/
def trimStr (s : String) : String :=
  ⟨((s.data.dropWhile isWSChar).reverse.dropWhile isWSChar).reverse⟩

/-- Model of JS `s.startsWith(p)`. -/
def startsWithB (s p : String) : Bool :=
  prefB p.data s.data

/-- Model of JS `s.endsWith(p)`. -/
def endsWithB (s p : String) : Bool :=
  prefB p.data.reverse s.data.reverse

/-! ## The message value seen by the trigger pipeline

`shouldTrigger(message: any, ...)` and
`processMessage(..., message: LertyMessage | IDataObject, ...)` receive either
a parsed WebSocket message or a raw webhook JSON body.  The fields the code
reads (`type`, `content`, `conversationId`, `userId`, `agentId`, `fileUrl`)
are modelled as possibly-absent strings; `conversation_id` is carried along
because raw webhook bodies use the snake_case key (the filter never reads
it). -/

structure Msg where
  type : Option String
  content : Option String
  conversationId : Option String
  conversation_id : Option String
  userId : Option String
  agentId : Option String
  fileUrl : Option String
deriving DecidableEq, Repr

/-- The `messageFilters` collection parameter: each entry is a string with
default `""` and may be absent when the collection was never populated. -/
structure FilterPolicy where
  userId : Option String
  conversationId : Option String
  agentId : Option String
  contentContains : Option String
deriving DecidableEq, Repr

/-- JS `eventTypes.includes(message.type)`: membership of a
possibly-undefined string in a string list (`undefined` is never a
member). -/
def includesType (eventTypes : List String) (t : Option String) : Bool :=
  match t with
  | some s => eventTypes.contains s
  | none => false

/-- Embedding of `shouldTrigger(message, eventTypes, messageFilters)`
(LertyTrigger.node.ts lines 520–545): the early-return chain of filter
checks. -/
def shouldTrigger (m : Msg) (eventTypes : List String) (filters : FilterPolicy) : Bool :=
  -- if (eventTypes.length > 0 && !eventTypes.includes(message.type)) return false
  if eventTypes.length > 0 && !includesType eventTypes m.type then
    false
  -- if (messageFilters.userId && message.userId !== messageFilters.userId) return false
  else if truthyStr filters.userId && m.userId != filters.userId then
    false
  else if truthyStr filters.conversationId && m.conversationId != filters.conversationId then
    false
  else if truthyStr filters.agentId && m.agentId != filters.agentId then
    false
  -- if (messageFilters.contentContains && (!message.content ||
  --     !message.content.toLowerCase().includes(contentContains.toLowerCase()))) return false
  else if truthyStr filters.contentContains &&
      (!truthyStr m.content ||
        !containsCI (m.content.getD "") (filters.contentContains.getD "")) then
    false
  else
    true

/-- The admit decision as the specification words it: the conjunction of an
event-type allow-list check (empty list admits all), three equality checks
applied only when the corresponding filter is set, and a case-insensitive
substring check on the content, dropping when the content is absent.
Written from the spec's sentences, to be compared with `shouldTrigger`. -/
def admitSpec (m : Msg) (eventTypes : List String) (filters : FilterPolicy) : Bool :=
  (eventTypes.isEmpty || includesType eventTypes m.type)
  && (!truthyStr filters.userId || m.userId == filters.userId)
  && (!truthyStr filters.conversationId || m.conversationId == filters.conversationId)
  && (!truthyStr filters.agentId || m.agentId == filters.agentId)
  && (!truthyStr filters.contentContains ||
      (match m.content with
        | some c => containsCI c (filters.contentContains.getD "")
        | none => false))

/-! ## Message processing (`processMessage`, LertyTrigger.node.ts 474–518)

`processMessage` spreads the incoming message into a copy and, when file
download is enabled and a `fileUrl` is present, may attach a `binary` field.
The helpers it calls (`FileUtils.extractFileInfo`,
`FileUtils.downloadFileFromUrl`) live outside the embedded file and are
abstracted as parameters: `extract` is total, `download` returns `none` when
the call throws (the surrounding `try` swallows the error). -/

/-- Result of `FileUtils.extractFileInfo(url)`: a file name and MIME type. -/
structure FileInfo where
  name : String
  type : String
deriving DecidableEq, Repr

/-- Abstraction of a downloaded `Buffer`: its base64 rendering and length. -/
structure FileBuf where
  base64 : String
  length : Nat
deriving DecidableEq, Repr

/-- The file helpers `processMessage` calls, abstracted: `extract` models
`FileUtils.extractFileInfo` and `download` models
`FileUtils.downloadFileFromUrl`, with `none` for a thrown error. -/
structure FileOracle where
  extract : String → FileInfo
  download : String → Option FileBuf

/-- The `fileHandling` collection parameter (`downloadFiles`, `maxFileSize`
in MB, `allowedFileTypes` comma-separated); absent entries are `none`. -/
structure FileHandling where
  downloadFiles : Bool
  maxFileSize : Option Nat
  allowedFileTypes : Option String

/-- The `binary.file` object `processMessage` attaches on a successful
download. -/
structure BinaryFile where
  data : String
  mimeType : String
  fileName : String
  fileSize : Nat
deriving DecidableEq, Repr

/-- A processed message: the copied input plus the optional added `binary`
field. -/
structure ProcessedMsg where
  base : Msg
  binary : Option BinaryFile
deriving DecidableEq, Repr

/-- The allowed-MIME-type test inside `processMessage`:
`allowedTypes.some(...)` with `category/*` handled by
`fileInfo.type.startsWith(category)`. -/
def isAllowedType (allowedTypes : List String) (fileType : String) : Bool :=
  allowedTypes.any fun allowedType =>
    if endsWithB allowedType "/*" then
      startsWithB fileType ((splitChar allowedType '/').headD "")
    else
      fileType == allowedType

/-- Embedding of `processMessage(triggerFunctions, message, fileHandling)`:
copy the message; when `message.fileUrl` is truthy and
`fileHandling.downloadFiles` is set, compute the size ceiling
(`(maxFileSize || 10) * 1024 * 1024`), the allow-list (split on `,`,
trimmed), and attach `binary` only if the type is allowed, the download
succeeds, and the buffer is within the ceiling; every failure path leaves
the copy unchanged. -/
def processMessage (m : Msg) (fileHandling : FileHandling) (oracle : FileOracle) :
    ProcessedMsg :=
  if truthyStr m.fileUrl && fileHandling.downloadFiles then
    let url := m.fileUrl.getD ""
    let maxBytes := jsOrNat fileHandling.maxFileSize 10 * 1024 * 1024
    let allowedTypes :=
      (splitChar (jsOrStr fileHandling.allowedFileTypes "image/*,text/*,application/pdf") ',').map
        trimStr
    let fileInfo := oracle.extract url
    if isAllowedType allowedTypes fileInfo.type then
      match oracle.download url with
      | none => ⟨m, none⟩          -- download threw; caught and logged
      | some fileBuffer =>
        if fileBuffer.length ≤ maxBytes then
          ⟨m, some ⟨fileBuffer.base64, fileInfo.type, fileInfo.name, fileBuffer.length⟩⟩
        else
          ⟨m, none⟩                -- over the ceiling; binary silently not attached
    else
      ⟨m, none⟩
  else
    ⟨m, none⟩

/-! ## The webhook handler (`LertyTrigger.webhook`, lines 407–438)

The handler processes the body, evaluates `shouldTrigger`, and returns
`200 {received: true}`.  The admitted branch of the `if` in the source is
empty (a comment notes the trigger mechanism is not wired up), so no
emission ever happens and the response body never carries a `filtered`
key. -/

/-- The HTTP response the webhook handler produces: status, the `received`
flag, and the `filtered` key of the body (`none` = key absent). -/
structure WebhookResponse where
  status : Nat
  received : Bool
  filtered : Option Bool
deriving DecidableEq, Repr

/-- Observable outcome of one webhook invocation: the decision
`shouldTrigger` computed, the HTTP response, and the list of messages
emitted to the workflow. -/
structure WebhookOutcome where
  admitted : Bool
  response : WebhookResponse
  emissions : List ProcessedMsg
deriving DecidableEq, Repr

/-- Embedding of `LertyTrigger.webhook`: process the body, evaluate the
filter; the admitted branch of the source is an empty stub, so the emission
list is `[]` in both branches, and the response is unconditionally
`200 {received: true}` (no `filtered` key). -/
def webhook (body : Msg) (eventTypes : List String) (filters : FilterPolicy)
    (fileHandling : FileHandling) (oracle : FileOracle) : WebhookOutcome :=
  let processedMessage := processMessage body fileHandling oracle
  { admitted := shouldTrigger processedMessage.base eventTypes filters
    response := { status := 200, received := true, filtered := none }
    emissions := [] }

/-! ## Wire-payload normalization (`LertyWebSocket.parseMessage`)

The payload is an arbitrary JSON object; the fields the code reads are
modelled as possibly-absent strings.  `conversationId` and `thread_id` keys
are carried in the model so that claims about alternative naming
conventions can be stated — the source only ever reads `conversation_id`.
Metadata is an association list (`payload.metadata || {}`). -/

structure WirePayload where
  id : Option String
  type : Option String
  content : Option String
  conversation_id : Option String
  conversationId : Option String
  thread_id : Option String
  user_id : Option String
  agent_id : Option String
  timestamp : Option String
  metadata : Option (List (String × String))
  file_url : Option String
  file_name : Option String
  file_type : Option String
deriving DecidableEq, Repr

/-- The `LertyMessage` record `parseMessage` constructs. -/
structure LertyMessage where
  id : String
  type : String
  content : String
  conversationId : String
  userId : Option String
  agentId : Option String
  timestamp : String
  metadata : List (String × String)
  fileUrl : Option String
  fileName : Option String
  fileType : Option String
deriving DecidableEq, Repr

/-- Embedding of `LertyWebSocket.parseMessage(payload)` (lines 695–709).
`now` is the string `new Date().toISOString()` would produce at
construction time. -/
def parseMessage (payload : WirePayload) (now : String) : LertyMessage :=
  { id := jsOrStr payload.id ""
    type := jsOrStr payload.type "user_message"
    content := jsOrStr payload.content ""
    conversationId := jsOrStr payload.conversation_id ""
    userId := payload.user_id
    agentId := payload.agent_id
    timestamp := jsOrStr payload.timestamp now
    metadata := payload.metadata.getD []
    fileUrl := payload.file_url
    fileName := payload.file_name
    fileType := payload.file_type }

/-! ## Topic resolution (`subscribeToTopics`, lines 442–472)

The `switch (subscriptionMode)` collects topics: `single` pushes the
pattern, `multiple` pushes `topicValues.map(t => t.topic)` when the
collection is present, `agent` pushes `agent_chat:agent_${id}` per selected
agent.  No deduplication and no validation happen; an empty result simply
subscribes to nothing. -/

inductive SubscriptionMode
  | single
  | multiple
  | agent
deriving DecidableEq, Repr

/-- The topic list `subscribeToTopics` builds before subscribing, as a
function of the mode and the node parameters (`topicPattern`, the optional
`topics.topicValues` collection, the selected `agents`). -/
def resolveTopics (mode : SubscriptionMode) (topicPattern : String)
    (topicValues : Option (List String)) (agents : List String) : List String :=
  match mode with
  | .single => [topicPattern]
  | .multiple =>
    match topicValues with
    | some ts => ts
    | none => []
  | .agent => agents.map fun agentId => "agent_chat:agent_" ++ agentId

/-! ## Connection state machine (`LertyWebSocket`, lines 577–735)

State: the subscription registry (topic keys of the `Map`, in insertion
order), the `isConnected` flag, and `reconnectAttempts`.  Events embedded:
the `onOpen` handler (success: connected, counter reset), the `onClose`
handler (unexpected close: mark disconnected, run `handleReconnect`), and
the explicit `disconnect()` (unsubscribe every topic, clear the registry,
close the socket).  `handleReconnect` returns the updated state together
with the delay of the `setTimeout` it schedules, `none` when no further
attempt is scheduled. -/

structure WSConfig where
  reconnectAfterMs : Nat
  maxReconnectAttempts : Nat
deriving DecidableEq, Repr

structure WSState where
  subscriptions : List String
  isConnected : Bool
  reconnectAttempts : Nat
deriving DecidableEq, Repr

/-- Embedding of `LertyWebSocket.handleReconnect` (lines 629–638): when the
counter is below the cap, increment it and schedule a reconnect after
`reconnectAfterMs * reconnectAttempts` (the incremented value); otherwise
do nothing. -/
def handleReconnect (cfg : WSConfig) (s : WSState) : WSState × Option Nat :=
  if s.reconnectAttempts < cfg.maxReconnectAttempts then
    ({ s with reconnectAttempts := s.reconnectAttempts + 1 },
      some (cfg.reconnectAfterMs * (s.reconnectAttempts + 1)))
  else
    (s, none)

/-- The `onClose` handler (lines 620–623): mark disconnected, then
`handleReconnect`.  The subscription registry is not touched. -/
def onCloseStep (cfg : WSConfig) (s : WSState) : WSState × Option Nat :=
  handleReconnect cfg { s with isConnected := false }

/-- The `onOpen` handler (lines 609–613): mark connected and reset the
reconnect counter to 0. -/
def onOpenStep (s : WSState) : WSState :=
  { s with isConnected := true, reconnectAttempts := 0 }

/-- Embedding of `LertyWebSocket.disconnect()` (lines 711–722): unsubscribe
from every topic (each `unsubscribe` deletes its map entry), close the
socket, clear `isConnected`. -/
def disconnectStep (s : WSState) : WSState :=
  { s with subscriptions := [], isConnected := false }

/-- `LertyWebSocket.getSubscriptions()`: the registered topic keys. -/
def getSubscriptions (s : WSState) : List String :=
  s.subscriptions

/-- One consecutive connection failure as seen by the state machine: the
socket closes, `onClose` fires.  (Used to iterate failure sequences.) -/
def failStep (cfg : WSConfig) (s : WSState) : WSState :=
  (onCloseStep cfg s).1

/-! ## Auxiliary notions used by the statements -/

/-- Replace an empty-string filter value by an absent one (JS-falsy
normalization of a single `messageFilters` entry). -/
def blankToNone (o : Option String) : Option String :=
  match o with
  | none => none
  | some s => if s = "" then none else some s

/-- A filter policy with every empty-string entry replaced by an absent
entry. -/
def blankPolicy (f : FilterPolicy) : FilterPolicy :=
  ⟨blankToNone f.userId, blankToNone f.conversationId,
    blankToNone f.agentId, blankToNone f.contentContains⟩

/-- A file oracle for concrete evaluations: extraction yields empty info,
every download throws. -/
def noopOracle : FileOracle :=
  ⟨fun _ => ⟨"", ""⟩, fun _ => none⟩

/-- The `fileHandling` collection left at its default `{}`: no download. -/
def noFileHandling : FileHandling :=
  ⟨false, none, none⟩

/-- The webhook body
`{type:"user_message", conversation_id:"c1", content:"hello world"}` of the
end-to-end scenarios, as the message value the pipeline sees. -/
def helloBody : Msg :=
  ⟨some "user_message", some "hello world", none, some "c1", none, none, none⟩

/-! ## Helper lemmas -/

/-- A non-empty pattern is never found inside the empty content string. -/
theorem containsCI_blank {p : String} (h : p ≠ "") : containsCI "" p = false := by
  have hd : p.data ≠ [] := by
    intro hnil
    exact h (String.ext hnil)
  have hlow : (lowerStr "").data = ([] : List Char) := rfl
  unfold containsCI
  rw [hlow]
  cases hp : (lowerStr p).data with
  | nil =>
    exact absurd (by simpa [lowerStr] using hp) hd
  | cons c cs => rfl

/-- `shouldTrigger` as the conjunction of the negations of its five drop
conditions. -/
theorem shouldTrigger_conj (m : Msg) (ets : List String) (f : FilterPolicy) :
    shouldTrigger m ets f =
      (!(decide (ets.length > 0) && !includesType ets m.type)
      && !(truthyStr f.userId && m.userId != f.userId)
      && !(truthyStr f.conversationId && m.conversationId != f.conversationId)
      && !(truthyStr f.agentId && m.agentId != f.agentId)
      && !(truthyStr f.contentContains &&
            (!truthyStr m.content ||
              !containsCI (m.content.getD "") (f.contentContains.getD "")))) := by
  unfold shouldTrigger
  generalize (decide (ets.length > 0) && !includesType ets m.type) = b1
  generalize (truthyStr f.userId && m.userId != f.userId) = b2
  generalize (truthyStr f.conversationId && m.conversationId != f.conversationId) = b3
  generalize (truthyStr f.agentId && m.agentId != f.agentId) = b4
  generalize (truthyStr f.contentContains &&
      (!truthyStr m.content ||
        !containsCI (m.content.getD "") (f.contentContains.getD ""))) = b5
  cases b1 <;> cases b2 <;> cases b3 <;> cases b4 <;> cases b5 <;> simp

/-- The event-type drop condition, negated, is the allow-list clause of the
specification. -/
theorem clause_type_eq (m : Msg) (ets : List String) :
    (!(decide (ets.length > 0) && !includesType ets m.type))
    = (ets.isEmpty || includesType ets m.type) := by
  cases ets <;> simp

/-- An equality-filter drop condition, negated, is the corresponding
specification clause. -/
theorem clause_eq_filter (x o : Option String) :
    (!(truthyStr o && x != o)) = (!truthyStr o || x == o) := by
  cases h : (x == o) <;> simp [bne, h]

/-- The content drop condition, negated, is the substring clause of the
specification. -/
theorem clause_content_eq (mc fcc : Option String) :
    (!(truthyStr fcc &&
        (!truthyStr mc || !containsCI (mc.getD "") (fcc.getD ""))))
    = (!truthyStr fcc ||
        (match mc with
          | some c => containsCI c (fcc.getD "")
          | none => false)) := by
  cases fcc with
  | none => simp [truthyStr]
  | some p =>
    by_cases hp : p = ""
    · subst hp
      simp [truthyStr]
    · cases mc with
      | none => simp [truthyStr, hp]
      | some c =>
        by_cases hc : c = ""
        · subst hc
          simp [truthyStr, hp, containsCI_blank hp]
        · have hpb : (p == "") = false := beq_eq_false_iff_ne.mpr hp
          have hcb : (c == "") = false := beq_eq_false_iff_ne.mpr hc
          simp [truthyStr, bne, hpb, hcb]

/-- An equality-filter drop condition is unchanged when an empty-string
filter value is replaced by an absent one. -/
theorem filter_cond_blank (x o : Option String) :
    (truthyStr (blankToNone o) && x != blankToNone o)
    = (truthyStr o && x != o) := by
  cases o with
  | none => rfl
  | some s =>
    by_cases hs : s = ""
    · subst hs
      simp [blankToNone, truthyStr]
    · simp [blankToNone, truthyStr, hs]

/-- The content drop condition is unchanged when an empty-string filter
value is replaced by an absent one. -/
theorem content_cond_blank (mc o : Option String) :
    (truthyStr (blankToNone o) &&
      (!truthyStr mc || !containsCI (mc.getD "") ((blankToNone o).getD "")))
    = (truthyStr o &&
      (!truthyStr mc || !containsCI (mc.getD "") (o.getD ""))) := by
  cases o with
  | none => rfl
  | some s =>
    by_cases hs : s = ""
    · subst hs
      simp [blankToNone, truthyStr]
    · simp [blankToNone, truthyStr, hs]

/-- `processMessage` always copies the incoming message unchanged into the
`base` component. -/
theorem processMessage_base (m : Msg) (fh : FileHandling) (o : FileOracle) :
    (processMessage m fh o).base = m := by
  unfold processMessage
  dsimp only
  repeat' split
  all_goals rfl

/-! ## Claim theorems -/

/-- C1: the specification claims that a webhook POST admitted by the filter
policy (body `{type:"user_message", conversation_id:"c1",
content:"hello world"}` under policy `{eventTypes:["user_message"],
contentContains:"hello"}`) yields HTTP 200 `{received:true}` and exactly
one emission whose content is the posted content.  Evaluating the embedded
handler at exactly that input: the filter does admit the message and the
response is 200 `{received:true}`, but the emission list is empty — the
admitted branch of the source handler is an empty stub, so no message is
ever emitted to the workflow. -/
theorem webhook_admits_but_never_emits :
    (webhook helloBody ["user_message"] ⟨none, none, none, some "hello"⟩
        noFileHandling noopOracle).admitted = true
    ∧ (webhook helloBody ["user_message"] ⟨none, none, none, some "hello"⟩
        noFileHandling noopOracle).response = ⟨200, true, none⟩
    ∧ (webhook helloBody ["user_message"] ⟨none, none, none, some "hello"⟩
        noFileHandling noopOracle).emissions = [] := by
  refine ⟨by decide, rfl, rfl⟩

/-- C2 counterexample: the same POST body dropped by policy
`{eventTypes:["agent_response"]}` gets response body `{received:true}`
without any `filtered` key — not the claimed
`{received:true, filtered:true}`. -/
theorem webhook_filtered_flag_missing :
    (webhook helloBody ["agent_response"] ⟨none, none, none, none⟩
        noFileHandling noopOracle).admitted = false
    ∧ (webhook helloBody ["agent_response"] ⟨none, none, none, none⟩
        noFileHandling noopOracle).response = ⟨200, true, none⟩
    ∧ (webhook helloBody ["agent_response"] ⟨none, none, none, none⟩
        noFileHandling noopOracle).response ≠ ⟨200, true, some true⟩ := by
  refine ⟨by decide, rfl, by decide⟩

/-- C2 (amended): every webhook POST dropped by the filter policy still
gets HTTP 200, with body `{received:true}` (the source sets no `filtered`
marker), and no emission is performed; a legitimate filter-drop never
produces an error response. -/
theorem webhook_filter_drop_still_200 :
    ∀ (body : Msg) (ets : List String) (f : FilterPolicy) (fh : FileHandling)
      (o : FileOracle),
      shouldTrigger body ets f = false →
      (webhook body ets f fh o).admitted = false
      ∧ (webhook body ets f fh o).response = ⟨200, true, none⟩
      ∧ (webhook body ets f fh o).emissions = [] := by
  intro body ets f fh o h
  refine ⟨?_, rfl, rfl⟩
  show shouldTrigger (processMessage body fh o).base ets f = false
  rw [processMessage_base]
  exact h

/-- Witness for the amended C2 at the scenario's concrete input. -/
theorem webhook_filter_drop_still_200_witness :
    shouldTrigger helloBody ["agent_response"] ⟨none, none, none, none⟩ = false
    ∧ (webhook helloBody ["agent_response"] ⟨none, none, none, none⟩
        noFileHandling noopOracle).response = ⟨200, true, none⟩ := by
  refine ⟨by decide,
    (webhook_filter_drop_still_200 helloBody ["agent_response"]
      ⟨none, none, none, none⟩ noFileHandling noopOracle (by decide)).2.1⟩

/-- C3 counterexample: a wire payload carrying only the camelCase
`conversationId` key (value `"c1"`) normalizes to an empty
`conversationId`, not `"c1"`: `parseMessage` reads only
`payload.conversation_id`, so the claimed fallback to `conversationId` or
`thread_id` does not exist. -/
theorem parseMessage_ignores_camelCase :
    (parseMessage
        ⟨none, none, none, none, some "c1", none, none, none, none, none, none, none, none⟩
        "2026-01-01T00:00:00.000Z").conversationId = ""
    ∧ (parseMessage
        ⟨none, none, none, none, some "c1", none, none, none, none, none, none, none, none⟩
        "2026-01-01T00:00:00.000Z").conversationId ≠ "c1" := by
  refine ⟨rfl, by decide⟩

/-- C3 (amended): the normalizer resolves the conversation id from the
snake_case `conversation_id` key alone (`payload.conversation_id || ''`):
with all three naming conventions present it yields the `conversation_id`
value, and a payload carrying only `conversationId` or only `thread_id`
yields the empty string. -/
theorem parseMessage_conversation_id_priority :
    (∀ (p : WirePayload) (now : String),
      (parseMessage p now).conversationId = jsOrStr p.conversation_id "")
    ∧ (parseMessage
        ⟨none, none, none, some "cs", some "cc", some "ct", none, none, none, none, none, none, none⟩
        "T").conversationId = "cs"
    ∧ (parseMessage
        ⟨none, none, none, none, some "cc", none, none, none, none, none, none, none, none⟩
        "T").conversationId = ""
    ∧ (parseMessage
        ⟨none, none, none, none, none, some "ct", none, none, none, none, none, none, none⟩
        "T").conversationId = "" := by
  refine ⟨fun p now => rfl, by decide, rfl, rfl⟩

/-- C4 counterexample: in `multiple` mode the resolved topic list keeps
duplicates (the claim says duplicates are removed), and a missing topic
collection resolves to the empty list without any `InvalidConfiguration`
failure (the model is total because the source has no validation or error
path). -/
theorem resolveTopics_keeps_duplicates :
    resolveTopics .multiple "agent_chat:*" (some ["agent_chat:t1", "agent_chat:t1"]) []
      = ["agent_chat:t1", "agent_chat:t1"]
    ∧ ¬ (["agent_chat:t1", "agent_chat:t1"] : List String).Nodup
    ∧ resolveTopics .multiple "agent_chat:*" none [] = [] := by
  refine ⟨rfl, by decide, rfl⟩

/-- C4 (amended): topic resolution is total and unvalidated: `single`
yields the one-element pattern list, `multiple` yields the supplied list
verbatim (duplicates kept, empty when the collection is absent), `agent`
yields `agent_chat:agent_{id}` per id in order; no invalid combination is
rejected and no `InvalidConfiguration` error exists. -/
theorem resolveTopics_eqns :
    (∀ (pat : String) (tvs : Option (List String)) (ags : List String),
      resolveTopics .single pat tvs ags = [pat])
    ∧ (∀ (pat : String) (ts : List String) (ags : List String),
      resolveTopics .multiple pat (some ts) ags = ts)
    ∧ (∀ (pat : String) (ags : List String),
      resolveTopics .multiple pat none ags = [])
    ∧ (∀ (pat : String) (tvs : Option (List String)) (ags : List String),
      resolveTopics .agent pat tvs ags
        = ags.map fun agentId => "agent_chat:agent_" ++ agentId) := by
  exact ⟨fun _ _ _ => rfl, fun _ _ _ => rfl, fun _ _ => rfl, fun _ _ _ => rfl⟩

/-- C5: per connection failure below the cap, the reconnect counter
increments by exactly 1 and the scheduled delay before attempt `n` is
`reconnectAfterMs * n` (linear); at or above the cap nothing further is
scheduled and the counter stays put; a successful open resets the counter
to 0.  With `maxReconnectAttempts = 3` (delay 5000): the three failures
schedule delays 5000, 10000, 15000 and raise the counter to 3; the 4th
consecutive failure schedules no attempt and leaves the connection
terminally disconnected. -/
theorem reconnect_linear_capped :
    (∀ (cfg : WSConfig) (s : WSState),
      s.reconnectAttempts < cfg.maxReconnectAttempts →
      handleReconnect cfg s =
        ({ s with reconnectAttempts := s.reconnectAttempts + 1 },
          some (cfg.reconnectAfterMs * (s.reconnectAttempts + 1))))
    ∧ (∀ (cfg : WSConfig) (s : WSState),
      ¬ s.reconnectAttempts < cfg.maxReconnectAttempts →
      handleReconnect cfg s = (s, none))
    ∧ (∀ s : WSState, (onOpenStep s).reconnectAttempts = 0)
    ∧ (onCloseStep ⟨5000, 3⟩ ⟨[], true, 0⟩).2 = some 5000
    ∧ ((failStep ⟨5000, 3⟩)^[1] ⟨[], true, 0⟩).reconnectAttempts = 1
    ∧ (onCloseStep ⟨5000, 3⟩ ((failStep ⟨5000, 3⟩)^[1] ⟨[], true, 0⟩)).2 = some 10000
    ∧ (onCloseStep ⟨5000, 3⟩ ((failStep ⟨5000, 3⟩)^[2] ⟨[], true, 0⟩)).2 = some 15000
    ∧ ((failStep ⟨5000, 3⟩)^[3] ⟨[], true, 0⟩).reconnectAttempts = 3
    ∧ (onCloseStep ⟨5000, 3⟩ ((failStep ⟨5000, 3⟩)^[3] ⟨[], true, 0⟩)).2 = none
    ∧ ((failStep ⟨5000, 3⟩)^[4] ⟨[], true, 0⟩).reconnectAttempts = 3
    ∧ ((failStep ⟨5000, 3⟩)^[4] ⟨[], true, 0⟩).isConnected = false
    ∧ (onOpenStep ((failStep ⟨5000, 3⟩)^[2] ⟨[], true, 0⟩)).reconnectAttempts = 0 := by
  refine ⟨?_, ?_, fun s => rfl, by decide, by decide, by decide, by decide,
    by decide, by decide, by decide, by decide, by decide⟩
  · intro cfg s h
    unfold handleReconnect
    rw [if_pos h]
  · intro cfg s h
    unfold handleReconnect
    rw [if_neg h]

/-- Witness for C5: one failure below the cap increments and schedules
linearly; one at the cap schedules nothing. -/
theorem reconnect_linear_capped_witness :
    ((0 : Nat) < 3
      ∧ handleReconnect ⟨5000, 3⟩ ⟨[], false, 0⟩ = (⟨[], false, 1⟩, some 5000))
    ∧ (¬ (3 : Nat) < 3
      ∧ handleReconnect ⟨5000, 3⟩ ⟨[], false, 3⟩ = (⟨[], false, 3⟩, none)) := by
  refine ⟨⟨by decide, reconnect_linear_capped.1 ⟨5000, 3⟩ ⟨[], false, 0⟩ (by decide)⟩,
    ⟨by decide, reconnect_linear_capped.2.1 ⟨5000, 3⟩ ⟨[], false, 3⟩ (by decide)⟩⟩

/-- C6: the admit decision of `shouldTrigger` is exactly the specification's
conjunction of conditions: empty `eventTypes` admits every type, a
non-empty list drops unlisted types, each configured equality filter drops
on mismatch, a configured `contentContains` drops when the content is
absent or does not contain it case-insensitively, and otherwise the message
is admitted. -/
theorem shouldTrigger_eq_admitSpec :
    ∀ (m : Msg) (ets : List String) (f : FilterPolicy),
      shouldTrigger m ets f = admitSpec m ets f := by
  intro m ets f
  rw [shouldTrigger_conj, clause_type_eq,
    clause_eq_filter m.userId f.userId,
    clause_eq_filter m.conversationId f.conversationId,
    clause_eq_filter m.agentId f.agentId,
    clause_content_eq m.content f.contentContains]
  rfl

/-- C7 counterexample: an unexpected channel close with 2 topics subscribed
leaves both subscriptions registered — the registry is not cleared, and the
subsequent listing is not empty, contrary to the claim. -/
theorem unexpected_close_keeps_registry :
    ((onCloseStep ⟨5000, 10⟩ ⟨["agent_chat:a", "agent_chat:b"], true, 0⟩).1).subscriptions
      = ["agent_chat:a", "agent_chat:b"]
    ∧ getSubscriptions (onCloseStep ⟨5000, 10⟩ ⟨["agent_chat:a", "agent_chat:b"], true, 0⟩).1
      ≠ [] := by
  refine ⟨rfl, by decide⟩

/-- C7 (amended): only the explicit `disconnect()` call clears the
subscription registry (after which the listing is empty); an unexpected
close only marks the connection as disconnected and leaves every
subscription registered. -/
theorem registry_cleared_only_by_disconnect :
    (∀ (cfg : WSConfig) (s : WSState),
      (onCloseStep cfg s).1.subscriptions = s.subscriptions
      ∧ (onCloseStep cfg s).1.isConnected = false)
    ∧ (∀ s : WSState,
      getSubscriptions (disconnectStep s) = [] ∧ (disconnectStep s).isConnected = false) := by
  constructor
  · intro cfg s
    unfold onCloseStep handleReconnect
    split <;> exact ⟨rfl, rfl⟩
  · intro s
    exact ⟨rfl, rfl⟩

/-- C8: normalization is total and defaulting: the produced message always
carries a non-empty `type` and (given a non-empty construction time) a
non-empty `timestamp`; a missing or empty wire `type` defaults to
`user_message`, a missing `timestamp` defaults to the construction time,
and the all-absent payload normalizes to empty-string/undefined defaults
throughout. -/
theorem parseMessage_total_defaults :
    ∀ (p : WirePayload) (now : String), now ≠ "" →
      (parseMessage p now).type ≠ ""
      ∧ (parseMessage p now).timestamp ≠ ""
      ∧ ((p.type = none ∨ p.type = some "") →
          (parseMessage p now).type = "user_message")
      ∧ (p.timestamp = none → (parseMessage p now).timestamp = now)
      ∧ parseMessage ⟨none, none, none, none, none, none, none, none, none, none, none, none, none⟩ now
          = ⟨"", "user_message", "", "", none, none, now, [], none, none, none⟩ := by
  intro p now hnow
  refine ⟨?_, ?_, ?_, ?_, rfl⟩
  · show jsOrStr p.type "user_message" ≠ ""
    cases hp : p.type with
    | none => decide
    | some s =>
      by_cases hs : s = "" <;> simp [jsOrStr, hs]
  · show jsOrStr p.timestamp now ≠ ""
    cases hp : p.timestamp with
    | none => exact hnow
    | some s =>
      by_cases hs : s = "" <;> simp [jsOrStr, hs, hnow]
  · intro h
    show jsOrStr p.type "user_message" = "user_message"
    rcases h with h | h <;> rw [h] <;> rfl
  · intro h
    show jsOrStr p.timestamp now = now
    rw [h]
    rfl

/-- Witness for C8 at a concrete construction time and the all-absent
payload. -/
theorem parseMessage_total_defaults_witness :
    ("2026-01-01T00:00:00.000Z" : String) ≠ ""
    ∧ (parseMessage
        ⟨none, none, none, none, none, none, none, none, none, none, none, none, none⟩
        "2026-01-01T00:00:00.000Z").type = "user_message" := by
  have h : ("2026-01-01T00:00:00.000Z" : String) ≠ "" := by decide
  exact ⟨h,
    (parseMessage_total_defaults
      ⟨none, none, none, none, none, none, none, none, none, none, none, none, none⟩
      "2026-01-01T00:00:00.000Z" h).2.2.1 (Or.inl rfl)⟩

/-- C9: a filter field whose value is the empty string behaves exactly as
if the filter were unset (JS falsiness skips the check): replacing every
empty-string filter entry by an absent one never changes the decision, and
a policy whose only entry is `userId = ""` admits every message
whatsoever. -/
theorem empty_filter_behaves_unset :
    (∀ (m : Msg) (ets : List String) (f : FilterPolicy),
      shouldTrigger m ets (blankPolicy f) = shouldTrigger m ets f)
    ∧ (∀ m : Msg, shouldTrigger m [] ⟨some "", none, none, none⟩ = true) := by
  constructor
  · intro m ets f
    rw [shouldTrigger_conj, shouldTrigger_conj]
    dsimp only [blankPolicy]
    rw [filter_cond_blank m.userId f.userId,
      filter_cond_blank m.conversationId f.conversationId,
      filter_cond_blank m.agentId f.agentId,
      content_cond_blank m.content f.contentContains]
  · intro m
    rw [shouldTrigger_conj]
    simp [truthyStr]

/-- C10: processing before filtering never alters existing fields — the
copy agrees with the input on every field; when download is disabled or no
(truthy) `fileUrl` is present the output is exactly the copy with no
`binary`; and a `binary` field appears only when download is enabled, a
`fileUrl` is present, the extracted MIME type passes the allow-list, and
the download succeeds with a length within the size ceiling. -/
theorem processMessage_frame :
    ∀ (m : Msg) (fh : FileHandling) (o : FileOracle),
      (processMessage m fh o).base = m
      ∧ ((truthyStr m.fileUrl && fh.downloadFiles) = false →
          processMessage m fh o = ⟨m, none⟩)
      ∧ (∀ b : BinaryFile, (processMessage m fh o).binary = some b →
          truthyStr m.fileUrl = true ∧ fh.downloadFiles = true
          ∧ isAllowedType
              ((splitChar (jsOrStr fh.allowedFileTypes "image/*,text/*,application/pdf") ',').map
                trimStr)
              (o.extract (m.fileUrl.getD "")).type = true
          ∧ ∃ buf : FileBuf, o.download (m.fileUrl.getD "") = some buf
              ∧ buf.length ≤ jsOrNat fh.maxFileSize 10 * 1024 * 1024
              ∧ b = ⟨buf.base64, (o.extract (m.fileUrl.getD "")).type,
                  (o.extract (m.fileUrl.getD "")).name, buf.length⟩) := by
  intro m fh o
  refine ⟨processMessage_base m fh o, ?_, ?_⟩
  · intro h
    unfold processMessage
    rw [h]
    simp
  · intro b hb
    unfold processMessage at hb
    dsimp only at hb
    split at hb
    case isFalse h1 => simp at hb
    case isTrue h1 =>
      rw [Bool.and_eq_true] at h1
      obtain ⟨hu, hd⟩ := h1
      split at hb
      case isFalse h2 => simp at hb
      case isTrue h2 =>
        split at hb
        case h_1 heq => simp at hb
        case h_2 buf heq =>
          split at hb
          case isFalse h3 => simp at hb
          case isTrue h3 =>
            simp only [Option.some.injEq] at hb
            exact ⟨hu, hd, h2, buf, heq, h3, hb.symm⟩

/-- A file oracle whose download succeeds with a 3-byte buffer. -/
def dlOracle : FileOracle :=
  ⟨fun _ => ⟨"a.png", "image/png"⟩, fun _ => some ⟨"QUJD", 3⟩⟩

/-- A message carrying a file attachment URL. -/
def dlMsg : Msg :=
  ⟨some "file_attachment", none, none, none, none, none, some "https://x/a.png"⟩

/-- File handling enabled with a 1 MB ceiling and the default allow-list. -/
def dlFH : FileHandling :=
  ⟨true, some 1, none⟩

/-- Witness for C10: the no-download branch copies exactly, and the
successful-download branch satisfies every stated condition. -/
theorem processMessage_frame_witness :
    ((truthyStr helloBody.fileUrl && noFileHandling.downloadFiles) = false
      ∧ processMessage helloBody noFileHandling noopOracle = ⟨helloBody, none⟩)
    ∧ ((processMessage dlMsg dlFH dlOracle).binary
          = some ⟨"QUJD", "image/png", "a.png", 3⟩
      ∧ (truthyStr dlMsg.fileUrl = true ∧ dlFH.downloadFiles = true
        ∧ isAllowedType
            ((splitChar (jsOrStr dlFH.allowedFileTypes "image/*,text/*,application/pdf") ',').map
              trimStr)
            (dlOracle.extract (dlMsg.fileUrl.getD "")).type = true
        ∧ ∃ buf : FileBuf, dlOracle.download (dlMsg.fileUrl.getD "") = some buf
            ∧ buf.length ≤ jsOrNat dlFH.maxFileSize 10 * 1024 * 1024
            ∧ (⟨"QUJD", "image/png", "a.png", 3⟩ : BinaryFile)
                = ⟨buf.base64, (dlOracle.extract (dlMsg.fileUrl.getD "")).type,
                    (dlOracle.extract (dlMsg.fileUrl.getD "")).name, buf.length⟩)) := by
  refine ⟨⟨by decide,
      (processMessage_frame helloBody noFileHandling noopOracle).2.1 (by decide)⟩,
    by decide,
    (processMessage_frame dlMsg dlFH dlOracle).2.2
      ⟨"QUJD", "image/png", "a.png", 3⟩ (by decide)⟩
